import Mathlib

/-!
Shallow embedding of the DevCycle Go server SDK's event queue and flush
pipeline (`eventqueue.go`) and of the retrying request executor and `Track`
entry point (`client.go`).

Pure control flow and data flow of the Go source are translated into Lean
functions.  The network is abstracted as an outcome-per-payload function
(`dispatch`), and per-attempt network results for the retrying executor as an
outcome-per-attempt function (`net`).  The WASM local-bucketing engine is not
part of the source tree; the operations the queue invokes on it are modelled
from the spec's collaborator contract (see `EngineState`).  Counters are
modelled as `Nat` (the Go `atomic.Int32` values never approach overflow in the
properties considered here).
-/

namespace DevCycle

/-- Options consumed by the event queue and client
(`DVCOptions` in the Go source; only the fields the embedded code reads). -/
structure DVCOptions where
  EnableCloudBucketing : Bool
  DisableAutomaticEventLogging : Bool
  DisableCustomEventLogging : Bool
  /-- soft threshold: `FlushEventQueueSize` -/
  FlushEventQueueSize : Nat
  /-- hard cap: `MaxEventQueueSize` -/
  MaxEventQueueSize : Nat
deriving DecidableEq, Repr

/-- A drained batch: `FlushPayload` with its unique `PayloadId` and the
serialized event records. -/
structure FlushPayload where
  PayloadId : String
  Records : List String
deriving DecidableEq, Repr

/-- `FlushResult`: the three outcome sets built by `flushEventPayloads`. -/
structure FlushResult where
  SuccessPayloads : List String
  FailurePayloads : List String
  FailureWithRetryPayloads : List String
deriving DecidableEq, Repr

/-- Calls the queue makes on an evaluation engine, recorded in order. -/
inductive EngineCall where
  | startFlush : EngineCall
  | finishFlush : EngineCall
  | queueEvent (user event : String) : EngineCall
  | queueAggregateEvent (event : String) : EngineCall
  | onPayloadSuccess (id : String) : EngineCall
  | onPayloadFailure (id : String) (retry : Bool) : EngineCall
  | handleFlushResults (r : FlushResult) : EngineCall
deriving DecidableEq, Repr

/-- Modelled from the spec: the evaluation-engine collaborator
(`DevCycleLocalBucketing` / `BucketingPoolObject`, not under the source tree).
Its contract: `checkEventQueueSize` returns the current buffered count,
`drainBatches`/`flushEventQueue` is an atomic snapshot-and-clear returning the
pending batches, and the remaining operations (`queueEvent`,
`queueAggregateEvent`, `onPayloadSuccess`, `onPayloadFailure`,
`HandleFlushResults`, begin/end-flush brackets) are recorded in `calls` so
theorems can speak about which engine calls the queue performed.  Engine
operations are modelled as total (the engine-side error returns are out of
scope of the claims). -/
structure EngineState where
  queueSize : Nat
  pending : List FlushPayload
  calls : List EngineCall
deriving DecidableEq, Repr

def EngineState.startFlushCall (s : EngineState) : EngineState :=
  { s with calls := s.calls ++ [.startFlush] }

def EngineState.finishFlushCall (s : EngineState) : EngineState :=
  { s with calls := s.calls ++ [.finishFlush] }

def EngineState.queueEventCall (s : EngineState) (user event : String) : EngineState :=
  { s with queueSize := s.queueSize + 1, calls := s.calls ++ [.queueEvent user event] }

def EngineState.queueAggregateEventCall (s : EngineState) (event : String) : EngineState :=
  { s with queueSize := s.queueSize + 1, calls := s.calls ++ [.queueAggregateEvent event] }

def EngineState.checkEventQueueSizeCall (s : EngineState) : Nat :=
  s.queueSize

/-- Modelled from the spec: `drainBatches() -> ([]Batch, Error?)` is an
"atomic snapshot-and-clear" of the engine buffer. -/
def EngineState.flushEventQueue (s : EngineState) : List FlushPayload × EngineState :=
  (s.pending, { s with pending := [], queueSize := 0 })

def EngineState.onPayloadSuccessCall (s : EngineState) (id : String) : EngineState :=
  { s with calls := s.calls ++ [.onPayloadSuccess id] }

def EngineState.onPayloadFailureCall (s : EngineState) (id : String) (retry : Bool) : EngineState :=
  { s with calls := s.calls ++ [.onPayloadFailure id retry] }

def EngineState.handleFlushResultsCall (s : EngineState) (r : FlushResult) : EngineState :=
  { s with calls := s.calls ++ [.handleFlushResults r] }

/-- Outcome of dispatching one payload to the events endpoint, abstracting the
HTTP interaction in `flushEventPayload`: body-serialization failure
(`json.Marshal`), request-construction failure (`http.NewRequest`), transport
failure (`HTTPClient.Do`), body-read failure after a response with the given
status was received (`io.ReadAll`), or a completed response with a status
code. -/
inductive DispatchOutcome where
  | marshalErr : DispatchOutcome
  | reqErr : DispatchOutcome
  | transportErr : DispatchOutcome
  | readErr (status : Nat) : DispatchOutcome
  | ok (status : Nat) : DispatchOutcome
deriving DecidableEq, Repr

/-- Accumulator state threaded through `flushEventPayload`: the three
`*[]string` accumulators (`none` models a nil Go slice, `some` a non-nil one)
plus the primary engine that immediate-mode reporting calls target. -/
structure ReportAcc where
  successes : Option (List String)
  failures : Option (List String)
  retryableFailures : Option (List String)
  engine : EngineState
deriving DecidableEq, Repr

/-- `reportPayloadSuccess`: append to the accumulator when it is non-nil,
otherwise call `onPayloadSuccess` on the engine. -/
def reportPayloadSuccess (p : FlushPayload) (acc : ReportAcc) : ReportAcc :=
  match acc.successes with
  | some l => { acc with successes := some (l ++ [p.PayloadId]) }
  | none => { acc with engine := acc.engine.onPayloadSuccessCall p.PayloadId }

/-- `reportPayloadFailure`: when the failure accumulator is non-nil, append to
the retryable or permanent list (Go `append` on a nil retryable slice
allocates, modelled by `Option.getD`); otherwise call `onPayloadFailure`. -/
def reportPayloadFailure (p : FlushPayload) (retry : Bool) (acc : ReportAcc) : ReportAcc :=
  match acc.failures with
  | some l =>
    if retry then
      { acc with retryableFailures := some (acc.retryableFailures.getD [] ++ [p.PayloadId]) }
    else
      { acc with failures := some (l ++ [p.PayloadId]) }
  | none => { acc with engine := acc.engine.onPayloadFailureCall p.PayloadId retry }

/-- `flushEventPayload`: dispatch one payload and classify the outcome,
following the Go branch order exactly (marshal error, request-construction
error, transport error, body-read error, then status `>= 500`, `>= 400`,
`== 201`, unknown).  The returned `Nat` is the increment applied to the
`eventsReported` counter. -/
def flushEventPayload (dispatch : FlushPayload → DispatchOutcome) (p : FlushPayload)
    (acc : ReportAcc) : ReportAcc × Nat :=
  match dispatch p with
  | .marshalErr => (reportPayloadFailure p false acc, 0)
  | .reqErr => (reportPayloadFailure p false acc, 0)
  | .transportErr => (reportPayloadFailure p false acc, 0)
  | .readErr _ => (reportPayloadFailure p false acc, 0)
  | .ok status =>
    if 500 ≤ status then (reportPayloadFailure p true acc, 0)
    else if 400 ≤ status then (reportPayloadFailure p false acc, 0)
    else if status = 201 then (reportPayloadSuccess p acc, 1)
    else (reportPayloadFailure p false acc, 0)

/-- One iteration of the payload loop in `flushEventPayloads`: dispatch the
payload and accumulate the `eventsReported` increment. -/
def flushStep (dispatch : FlushPayload → DispatchOutcome) (st : ReportAcc × Nat)
    (p : FlushPayload) : ReportAcc × Nat :=
  let (acc, rep) := flushEventPayload dispatch p st.1
  (acc, st.2 + rep)

/-- `flushEventPayloads`: initializes the three accumulators to non-nil empty
slices (`make([]string, 0)`), adds `len(payloads)` to `eventsFlushed`
(returned as the third component), dispatches every payload, and assembles the
`FlushResult`.  Returns the result, the (possibly updated) primary engine, the
`eventsFlushed` increment and the `eventsReported` increment. -/
def flushEventPayloads (dispatch : FlushPayload → DispatchOutcome)
    (payloads : List FlushPayload) (engine : EngineState) :
    FlushResult × EngineState × Nat × Nat :=
  let init : ReportAcc × Nat := (⟨some [], some [], some [], engine⟩, 0)
  let (acc, rep) := payloads.foldl (flushStep dispatch) init
  (⟨acc.successes.getD [], acc.failures.getD [], acc.retryableFailures.getD []⟩,
   acc.engine, payloads.length, rep)

/-- The event queue state (`EventQueue` in the Go source): options, the closed
flag, the two atomic counters, the primary engine and the engine pool. -/
structure EventQueue where
  options : DVCOptions
  closed : Bool
  eventsFlushed : Nat
  eventsReported : Nat
  engine : EngineState
  pool : List EngineState
deriving DecidableEq, Repr

/-- The pool traversal inside `FlushEvents`
(`bucketingObjectPool.ProcessAll`): each member is drained, its payloads
dispatched through `e.flushEventPayloads` (whose immediate-mode calls target
the primary engine), and the aggregated result handed back to the member.
Returns the primary engine, the updated pool, and the `eventsFlushed` /
`eventsReported` increments. -/
def processPool (dispatch : FlushPayload → DispatchOutcome) (primary : EngineState) :
    List EngineState → EngineState × List EngineState × Nat × Nat
  | [] => (primary, [], 0, 0)
  | m :: rest =>
    let (payloads, m1) := m.flushEventQueue
    let (result, primary1, fd, rd) := flushEventPayloads dispatch payloads primary
    let m2 := m1.handleFlushResultsCall result
    let (primary2, rest2, fd2, rd2) := processPool dispatch primary1 rest
    (primary2, m2 :: rest2, fd + fd2, rd + rd2)

/-- `FlushEvents`: brackets the drain with `startFlushEvents` /
`finishFlushEvents` (the latter deferred to function exit), drains the primary
engine, adds `len(payloads)` to `eventsFlushed`, dispatches the payloads via
`flushEventPayloads` (which adds `len(payloads)` to `eventsFlushed` again),
hands the aggregated result to the primary engine via `HandleFlushResults`,
then repeats drain→dispatch→report for every pool member. -/
def FlushEvents (dispatch : FlushPayload → DispatchOutcome) (e : EventQueue) : EventQueue :=
  let eng0 := e.engine.startFlushCall
  let (payloads, eng1) := eng0.flushEventQueue
  let (result, eng2, fd, rd) := flushEventPayloads dispatch payloads eng1
  let eng3 := eng2.handleFlushResultsCall result
  let (eng4, pool2, fdp, rdp) := processPool dispatch eng3 e.pool
  let eng5 := eng4.finishFlushCall
  { e with
    engine := eng5
    pool := pool2
    eventsFlushed := e.eventsFlushed + payloads.length + fd + fdp
    eventsReported := e.eventsReported + rd + rdp }

/-- `checkEventQueueSize`: query the engine's buffered count; if it is at or
above the soft threshold, flush immediately; signal drop when the count (as
read before the flush) is at or above the hard cap. -/
def checkEventQueueSize (dispatch : FlushPayload → DispatchOutcome) (e : EventQueue) :
    Bool × EventQueue :=
  let queueSize := e.engine.checkEventQueueSizeCall
  if e.options.FlushEventQueueSize ≤ queueSize then
    let e' := FlushEvents dispatch e
    if e.options.MaxEventQueueSize ≤ queueSize then (true, e') else (false, e')
  else (false, e)

/-- Producer-facing error outcomes of the queue operations. -/
inductive QueueErr where
  | Closed : QueueErr
  | QueueFull : QueueErr
deriving DecidableEq, Repr

/-- `QueueEvent`: fail with `Closed` when the queue is closed, with
`QueueFull` when `checkEventQueueSize` signals drop; otherwise (local
bucketing) serialize and forward to the engine.  Serialization of the
user/event structs is modelled as total: the inputs are already the serialized
strings handed to the engine. -/
def QueueEvent (dispatch : FlushPayload → DispatchOutcome) (user event : String)
    (e : EventQueue) : Except QueueErr Unit × EventQueue :=
  if e.closed then (.error .Closed, e)
  else
    let (q, e') := checkEventQueueSize dispatch e
    if q then (.error .QueueFull, e')
    else if !e'.options.EnableCloudBucketing then
      (.ok (), { e' with engine := e'.engine.queueEventCall user event })
    else (.ok (), e')

/-- `QueueAggregateEvent`: capacity check, then (local bucketing) forward to
the engine.  Note: the Go function performs no closed check. -/
def QueueAggregateEvent (dispatch : FlushPayload → DispatchOutcome) (event : String)
    (e : EventQueue) : Except QueueErr Unit × EventQueue :=
  let (q, e') := checkEventQueueSize dispatch e
  if q then (.error .QueueFull, e')
  else if !e'.options.EnableCloudBucketing then
    (.ok (), { e' with engine := e'.engine.queueAggregateEventCall event })
  else (.ok (), e')

/-- `Metrics`: snapshot of the two counters. -/
def Metrics (e : EventQueue) : Nat × Nat :=
  (e.eventsFlushed, e.eventsReported)

/-- `Close`: mark the queue closed (the timer-stop signal is concurrency
plumbing outside this model) and perform one final flush. -/
def Close (dispatch : FlushPayload → DispatchOutcome) (e : EventQueue) : EventQueue :=
  FlushEvents dispatch { e with closed := true }

/-- `exponentialBackoff(attempt)` from `client.go`, over exact rationals in
place of `float64`: `delay = 2^attempt * 100`, plus `delay * 0.2 * r` where
`r` is the uniform jitter draw `rand.Float64() ∈ [0,1)`. -/
def exponentialBackoff (attempt : Nat) (r : ℚ) : ℚ :=
  let delay : ℚ := 2 ^ attempt * 100
  let randomSum : ℚ := delay * (1 / 5) * r
  delay + randomSum

/-- What happens on one attempt of `performRequest`: request preparation
fails, the transport call fails, the transport returns a nil response, the
response body fails to read, or a response with a status code is received and
fully read. -/
inductive NetResult where
  | prepErr : NetResult
  | transportErr : NetResult
  | nilResponse : NetResult
  | readErr : NetResult
  | resp (status : Nat) : NetResult
deriving DecidableEq, Repr

/-- Errors `performRequest` can end with. -/
inductive ReqError where
  | prepFailed : ReqError
  | transport : ReqError
  | nilResp : ReqError
  | readFailed : ReqError
  | serverErr : ReqError
  | maxRetriesReached : ReqError
deriving DecidableEq, Repr

/-- The body of the `try.Do` closure in `performRequest`: returns the
continue flag `attempt <= 5` together with the error of this attempt (`none`
means the attempt succeeded and the loop stops with the received response).
A `5xx` status is converted into an error only while `attempt <= 5`. -/
def performAttempt (net : Nat → NetResult) (attempt : Nat) : Bool × Option ReqError :=
  match net attempt with
  | .prepErr => (false, some .prepFailed)
  | .transportErr => (decide (attempt ≤ 5), some .transport)
  | .nilResponse => (decide (attempt ≤ 5), some .nilResp)
  | .readErr => (decide (attempt ≤ 5), some .readFailed)
  | .resp status =>
    if 500 ≤ status ∧ attempt ≤ 5 then (decide (attempt ≤ 5), some .serverErr)
    else (decide (attempt ≤ 5), none)

/-- Status carried by a `NetResult.resp`; `0` for the other constructors
(only read on the success path, where the result is a `resp`). -/
def NetResult.statusOf : NetResult → Nat
  | .resp s => s
  | _ => 0

/-- The `try.Do` loop of the `github.com/matryer/try` library specialised to
`performRequest`'s closure: attempts are numbered from 1; the loop stops as
soon as the closure returns a `none` error (success) or a `false` continue
flag, and bails out with `maxRetriesReached` once the attempt counter would
exceed the library's `MaxRetries = 10`.  Returns the request result together
with the number of attempts performed; `fuel` bounds the recursion and is
never exhausted when starting from attempt 1 with fuel 11. -/
def performRequestAux (net : Nat → NetResult) : Nat → Nat → Except ReqError Nat × Nat
  | _, 0 => (.error .maxRetriesReached, 0)
  | attempt, fuel + 1 =>
    let (cont, err) := performAttempt net attempt
    match err with
    | none => (.ok (net attempt).statusOf, 1)
    | some e =>
      if !cont then (.error e, 1)
      else if 10 < attempt + 1 then (.error .maxRetriesReached, 1)
      else
        let (res, n) := performRequestAux net (attempt + 1) fuel
        (res, n + 1)

/-- `performRequest`: the retrying executor's observable result — either the
final error or the status of the response returned to the caller. -/
def performRequest (net : Nat → NetResult) : Except ReqError Nat :=
  (performRequestAux net 1 11).1

/-- Number of attempts `performRequest` performs against the given network. -/
def performRequestAttempts (net : Nat → NetResult) : Nat :=
  (performRequestAux net 1 11).2

/-- A custom event handed to `Track` (`DVCEvent`; only the fields the
embedded code reads). -/
structure DVCEvent where
  Type_ : String
  Target : String
deriving DecidableEq, Repr

/-- Client state consumed by `Track` (`DVCClient`). -/
structure DVCClient where
  options : DVCOptions
  isInitialized : Bool
  eventQueue : EventQueue
deriving DecidableEq, Repr

/-- Errors `Track` can return. -/
inductive TrackErr where
  | eventTypeRequired : TrackErr
  | queueErr (e : QueueErr) : TrackErr
  | requestErr (e : ReqError) : TrackErr
  | apiErr : TrackErr
deriving DecidableEq, Repr

/-- `Track`'s result together with its observable effects: the updated client
(queue mutations) and whether a cloud `/v1/track` request was issued. -/
structure TrackOutcome where
  queued : Bool
  err : Option TrackErr
  client : DVCClient
  cloudCalled : Bool
deriving DecidableEq, Repr

/-- `Track` from `client.go`: returns immediately when custom event logging
is disabled; rejects an empty event type; in local-bucketing mode enqueues via
`QueueEvent` once initialized; in cloud mode posts the event via
`performRequest` (`decodeOk` abstracts whether decoding the 2xx response body
succeeds — note the Go code returns `false` on a successfully decoded 2xx
response and `true` otherwise, which is modelled as-is). -/
def Track (dispatch : FlushPayload → DispatchOutcome) (net : Nat → NetResult)
    (decodeOk : Bool) (c : DVCClient) (user : String) (event : DVCEvent) : TrackOutcome :=
  if c.options.DisableCustomEventLogging then ⟨true, none, c, false⟩
  else if event.Type_ = "" then ⟨false, some .eventTypeRequired, c, false⟩
  else if !c.options.EnableCloudBucketing then
    if c.isInitialized then
      let (res, eq') := QueueEvent dispatch user event.Type_ c.eventQueue
      match res with
      | .ok _ => ⟨true, none, { c with eventQueue := eq' }, false⟩
      | .error qe => ⟨false, some (.queueErr qe), { c with eventQueue := eq' }, false⟩
    else ⟨true, none, c, false⟩
  else
    match performRequest net with
    | .error e => ⟨false, some (.requestErr e), c, true⟩
    | .ok status =>
      if status < 300 then
        if decodeOk then ⟨false, none, c, true⟩ else ⟨true, none, c, true⟩
      else ⟨false, some .apiErr, c, true⟩

/-! Derived abstractions used to state the theorems. -/

/-- The three terminal classifications of a dispatched payload. -/
inductive OutcomeClass where
  | success : OutcomeClass
  | permanent : OutcomeClass
  | retryable : OutcomeClass
deriving DecidableEq, Repr

/-- Classification of a dispatch outcome, read off the branch structure of
`flushEventPayload`. -/
def outcomeClass : DispatchOutcome → OutcomeClass
  | .marshalErr => .permanent
  | .reqErr => .permanent
  | .transportErr => .permanent
  | .readErr _ => .permanent
  | .ok status =>
    if 500 ≤ status then .retryable
    else if 400 ≤ status then .permanent
    else if status = 201 then .success
    else .permanent

/-- Classification rules exactly as the spec states them, for comparison with
the code: errors (body serialization, request construction, transport — a
failure reading the response body is a transport failure while receiving) are
permanent; otherwise status `≥ 500` is retryable; otherwise status in
`[400, 500)` is permanent; otherwise status `201` is success; any other
status is permanent. -/
def specClassify : DispatchOutcome → OutcomeClass
  | .marshalErr => .permanent
  | .reqErr => .permanent
  | .transportErr => .permanent
  | .readErr _ => .permanent
  | .ok status =>
    if 500 ≤ status then .retryable
    else if 400 ≤ status ∧ status < 500 then .permanent
    else if status = 201 then .success
    else .permanent

/-- PayloadIds of the payloads whose dispatch outcome classifies as success,
in drain order. -/
def successIds (dispatch : FlushPayload → DispatchOutcome) (ps : List FlushPayload) :
    List String :=
  (ps.filter fun p => outcomeClass (dispatch p) = OutcomeClass.success).map FlushPayload.PayloadId

/-- PayloadIds of the payloads whose dispatch outcome classifies as permanent
failure, in drain order. -/
def failureIds (dispatch : FlushPayload → DispatchOutcome) (ps : List FlushPayload) :
    List String :=
  (ps.filter fun p => outcomeClass (dispatch p) = OutcomeClass.permanent).map FlushPayload.PayloadId

/-- PayloadIds of the payloads whose dispatch outcome classifies as retryable
failure, in drain order. -/
def retryIds (dispatch : FlushPayload → DispatchOutcome) (ps : List FlushPayload) :
    List String :=
  (ps.filter fun p => outcomeClass (dispatch p) = OutcomeClass.retryable).map FlushPayload.PayloadId

/-- Attempt `b` of `performRequest` fails and the loop will go on to the next
attempt: the closure returned a `true` continue flag together with an error. -/
abbrev retryAt (net : Nat → NetResult) (b : Nat) : Prop :=
  (performAttempt net b).1 = true ∧ (performAttempt net b).2.isSome = true

/-! Concrete fixtures used by witnesses, counterexamples and the code-bug
evaluation. -/

/-- Fixture options: soft threshold 10, hard cap 20, local bucketing. -/
def optsFix : DVCOptions := ⟨false, false, false, 10, 20⟩

/-- Fixture dispatch: the endpoint answers every batch with status 201. -/
def d201 : FlushPayload → DispatchOutcome := fun _ => .ok 201

/-- Fixture dispatch: first batch succeeds, second gets a 503. -/
def dMixed : FlushPayload → DispatchOutcome := fun p =>
  if p.PayloadId = "a" then .ok 201 else .ok 503

/-- Fixture queue: one pending payload `p1`, empty pool, zero counters. -/
def queueFix : EventQueue := ⟨optsFix, false, 0, 0, ⟨1, [⟨"p1", ["r1"]⟩], []⟩, []⟩

/-- Fixture queue: 25 buffered events (above both thresholds), nothing pending. -/
def queueBigFix : EventQueue := ⟨optsFix, false, 0, 0, ⟨25, [], []⟩, []⟩

/-- Fixture queue: already closed, empty buffer. -/
def queueClosedFix : EventQueue := ⟨optsFix, true, 0, 0, ⟨0, [], []⟩, []⟩

/-- Fixture queue: open, empty buffer (to be closed via `Close`). -/
def queueOpenFix : EventQueue := ⟨optsFix, false, 0, 0, ⟨0, [], []⟩, []⟩

/-- Fixture network: every attempt fails at the transport. -/
def netFailFix : Nat → NetResult := fun _ => .transportErr

/-- Fixture network: attempts 1 and 2 fail at the transport, attempt 3
receives a 404 response. -/
def netRecoverFix : Nat → NetResult := fun a => if a < 3 then .transportErr else .resp 404

/-- Fixture client: custom event logging disabled. -/
def clientDisabledFix : DVCClient :=
  ⟨⟨false, false, true, 10, 20⟩, true, queueOpenFix⟩

/-- Fixture payload with id `a`. -/
def payloadA : FlushPayload := ⟨"a", ["e1"]⟩

/-- Fixture payload with id `b`. -/
def payloadB : FlushPayload := ⟨"b", ["e2"]⟩

/-- Fixture engine with an empty buffer. -/
def engineFix : EngineState := ⟨0, [], []⟩

end DevCycle

/-!
Helper lemmas shared by the claim theorems.
-/

namespace DevCycle

/-- With non-nil accumulators, `flushEventPayload` appends the payload's id to
exactly the accumulator selected by `outcomeClass`, and increments the
reported count exactly on success. -/
theorem flushEventPayload_some (d : FlushPayload → DispatchOutcome) (p : FlushPayload)
    (s f r : List String) (eng : EngineState) :
    flushEventPayload d p ⟨some s, some f, some r, eng⟩ =
      match outcomeClass (d p) with
      | .success => (⟨some (s ++ [p.PayloadId]), some f, some r, eng⟩, 1)
      | .permanent => (⟨some s, some (f ++ [p.PayloadId]), some r, eng⟩, 0)
      | .retryable => (⟨some s, some f, some (r ++ [p.PayloadId]), eng⟩, 0) := by
  cases hdp : d p with
  | marshalErr => simp [flushEventPayload, outcomeClass, hdp, reportPayloadFailure]
  | reqErr => simp [flushEventPayload, outcomeClass, hdp, reportPayloadFailure]
  | transportErr => simp [flushEventPayload, outcomeClass, hdp, reportPayloadFailure]
  | readErr st => simp [flushEventPayload, outcomeClass, hdp, reportPayloadFailure]
  | ok status =>
    by_cases h5 : 500 ≤ status
    · simp [flushEventPayload, outcomeClass, hdp, h5, reportPayloadFailure]
    · by_cases h4 : 400 ≤ status
      · simp [flushEventPayload, outcomeClass, hdp, h5, h4, reportPayloadFailure]
      · by_cases h2 : status = 201
        · simp [flushEventPayload, outcomeClass, hdp, h5, h4, h2, reportPayloadSuccess]
        · simp [flushEventPayload, outcomeClass, hdp, h5, h4, h2, reportPayloadFailure]

/-- The spec's classification rules coincide with the code's branch
structure. -/
theorem specClassify_eq_outcomeClass (o : DispatchOutcome) :
    specClassify o = outcomeClass o := by
  cases o with
  | ok status =>
    simp only [specClassify, outcomeClass]
    split_ifs <;> first | rfl | omega
  | _ => rfl

/-- `flushStep` on non-nil accumulators, by outcome class. -/
theorem flushStep_some (d : FlushPayload → DispatchOutcome) (p : FlushPayload)
    (s f r : List String) (eng : EngineState) (n : Nat) :
    flushStep d (⟨some s, some f, some r, eng⟩, n) p =
      match outcomeClass (d p) with
      | .success => (⟨some (s ++ [p.PayloadId]), some f, some r, eng⟩, n + 1)
      | .permanent => (⟨some s, some (f ++ [p.PayloadId]), some r, eng⟩, n + 0)
      | .retryable => (⟨some s, some f, some (r ++ [p.PayloadId]), eng⟩, n + 0) := by
  show ((flushEventPayload d p ⟨some s, some f, some r, eng⟩).1,
        n + (flushEventPayload d p ⟨some s, some f, some r, eng⟩).2) = _
  rw [flushEventPayload_some]
  rcases outcomeClass (d p) <;> rfl

/-- Closed form of the payload loop: the three accumulators extend by the ids
of the payloads of each class, in order, the engine is untouched, and the
reported count grows by the number of successes. -/
theorem flushFold (d : FlushPayload → DispatchOutcome) (ps : List FlushPayload) :
    ∀ (s f r : List String) (eng : EngineState) (n : Nat),
    ps.foldl (flushStep d) (⟨some s, some f, some r, eng⟩, n) =
      (⟨some (s ++ successIds d ps), some (f ++ failureIds d ps),
        some (r ++ retryIds d ps), eng⟩, n + (successIds d ps).length) := by
  induction ps with
  | nil => intro s f r eng n; simp [successIds, failureIds, retryIds]
  | cons p ps ih =>
    intro s f r eng n
    rw [List.foldl_cons, flushStep_some]
    rcases hc : outcomeClass (d p) with _ | _ | _ <;>
      simp only [hc] <;>
      rw [ih] <;>
      simp [successIds, failureIds, retryIds, List.filter_cons, hc] <;>
      omega

/-- Closed form of `flushEventPayloads`: the `FlushResult` groups the ids by
outcome class, the primary engine emerges unchanged (no immediate-mode call
ever fires, because the accumulators are non-nil), the flushed increment is
the payload count and the reported increment the success count. -/
theorem flushEventPayloads_eq (d : FlushPayload → DispatchOutcome)
    (ps : List FlushPayload) (eng : EngineState) :
    flushEventPayloads d ps eng =
      (⟨successIds d ps, failureIds d ps, retryIds d ps⟩, eng, ps.length,
       (successIds d ps).length) := by
  unfold flushEventPayloads
  dsimp only
  rw [flushFold]
  simp

/-- The three per-class id lists partition the full id list, counted per
element. -/
theorem count_partition (d : FlushPayload → DispatchOutcome) (ps : List FlushPayload)
    (x : String) :
    (successIds d ps).count x + (failureIds d ps).count x + (retryIds d ps).count x =
      (ps.map FlushPayload.PayloadId).count x := by
  induction ps with
  | nil => simp [successIds, failureIds, retryIds]
  | cons p ps ih =>
    rcases hc : outcomeClass (d p) with _ | _ | _ <;>
      simp [successIds, failureIds, retryIds, List.filter_cons, hc, List.count_cons] at ih ⊢ <;>
      omega

/-- Pool traversal leaves the primary engine unchanged: immediate-mode calls
never fire during pool processing either. -/
theorem processPool_primary (d : FlushPayload → DispatchOutcome) (pool : List EngineState) :
    ∀ primary : EngineState, (processPool d primary pool).1 = primary := by
  induction pool with
  | nil => intro primary; rfl
  | cons m rest ih =>
    intro primary
    simp [processPool, flushEventPayloads_eq, EngineState.flushEventQueue, ih]

/-- A `true` continue flag from the retry closure implies the attempt number
was at most 5. -/
theorem performAttempt_cont (net : Nat → NetResult) (attempt : Nat)
    (h : (performAttempt net attempt).1 = true) : attempt ≤ 5 := by
  unfold performAttempt at h
  rcases hn : net attempt with _ | _ | _ | _ | status <;> rw [hn] at h <;>
    simp at h <;> try exact h
  · split_ifs at h <;> simp at h <;> exact h

/-- The retry loop performs at most `max 1 (7 - attempt)` attempts from any
starting attempt number, with any fuel. -/
theorem performRequestAux_le (net : Nat → NetResult) :
    ∀ (fuel attempt : Nat), (performRequestAux net attempt fuel).2 ≤ max 1 (7 - attempt) := by
  intro fuel
  induction fuel with
  | zero => intro attempt; simp [performRequestAux]
  | succ fuel ih =>
    intro attempt
    unfold performRequestAux
    rcases he : (performAttempt net attempt).2 with _ | e
    · simp [he]
    · rcases hc : (performAttempt net attempt).1 with _ | _
      · simp [he, hc]
      · have h5 : attempt ≤ 5 := performAttempt_cont net attempt hc
        by_cases h10 : 10 < attempt + 1
        · omega
        · have := ih (attempt + 1)
          simp only [he, hc, h10]
          simp
          omega

/-- If every attempt before `a` fails retryably and attempt `a` receives a
response with status below 500, the loop stops at attempt `a` and returns
that response. -/
theorem performRequestAux_first_4xx (net : Nat → NetResult) :
    ∀ (fuel attempt a s : Nat), 1 ≤ attempt → attempt ≤ a → a - attempt < fuel →
    (∀ b, attempt ≤ b → b < a → retryAt net b) →
    net a = .resp s → ¬ 500 ≤ s →
    performRequestAux net attempt fuel = (.ok s, a - attempt + 1) := by
  intro fuel
  induction fuel with
  | zero => intro attempt a s h1 hle hfuel; omega
  | succ fuel ih =>
    intro attempt a s h1 hle hfuel hretry hresp hs
    by_cases heq : attempt = a
    · subst heq
      have hpa : performAttempt net attempt = (decide (attempt ≤ 5), none) := by
        simp [performAttempt, hresp, hs]
      unfold performRequestAux
      rw [hpa]
      have hsub : attempt - attempt = 0 := by omega
      simp [hresp, NetResult.statusOf, hsub]
    · have hlt : attempt < a := by omega
      obtain ⟨hc, hsome⟩ := hretry attempt (le_refl _) hlt
      obtain ⟨e, he⟩ := Option.isSome_iff_exists.mp hsome
      have h5 : attempt ≤ 5 := performAttempt_cont net attempt hc
      have hpa : performAttempt net attempt = (true, some e) := by
        rw [← hc, ← he]
      have hrec := ih (attempt + 1) a s (by omega) (by omega) (by omega)
        (fun b hb1 hb2 => hretry b (by omega) hb2) hresp hs
      unfold performRequestAux
      rw [hpa]
      simp only [Bool.not_true]
      rw [if_neg (by simp)]
      rw [if_neg (show ¬ 10 < attempt + 1 by omega)]
      rw [hrec]
      simp only [Prod.mk.injEq]
      exact ⟨trivial, by omega⟩

end DevCycle

/-!
Claim theorems.
-/

namespace DevCycle

/-- Claim C1 (code bug): the spec says a flush in which the primary drain
returns N payloads, all answered 201, increases `eventsFlushed` by exactly N
and `eventsReported` by exactly N.  In the code `eventsFlushed` is
incremented once in `FlushEvents` right after the drain and a second time
inside `flushEventPayloads`, so for the failing input of one payload (id
`p1`, endpoint answering 201, empty pool) it increases by 2 while
`eventsReported` increases by 1 as claimed. -/
theorem FlushEvents_double_counts_flushed :
    (FlushEvents d201 queueFix).eventsFlushed = 2 ∧
    (FlushEvents d201 queueFix).eventsReported = 1 := by decide

/-- Claim C2: once the queue is closed, `QueueEvent` fails with the `Closed`
error and returns the state unchanged — in particular no `queueEvent` call
reaches the engine's buffer. -/
theorem QueueEvent_closed_rejects (d : FlushPayload → DispatchOutcome)
    (user event : String) (e : EventQueue) (h : e.closed = true) :
    QueueEvent d user event e = (.error .Closed, e) := by
  simp [QueueEvent, h]

/-- Witness for C2: a queue closed via `Close` rejects a subsequent
`QueueEvent` with `Closed` and leaves the state untouched. -/
theorem QueueEvent_closed_rejects_witness :
    (Close d201 queueOpenFix).closed = true ∧
    QueueEvent d201 "user" "event" (Close d201 queueOpenFix) =
      (.error .Closed, Close d201 queueOpenFix) :=
  ⟨rfl, QueueEvent_closed_rejects d201 "user" "event" (Close d201 queueOpenFix) rfl⟩

/-- Counterexample to claim C3: on a closed queue, `QueueAggregateEvent` does
not fail with `Closed` — it succeeds and forwards the event to the engine,
because the Go function performs no closed check. -/
theorem QueueAggregateEvent_closed_counterexample :
    queueClosedFix.closed = true ∧
    (QueueAggregateEvent d201 "ev" queueClosedFix).1 = Except.ok () ∧
    (QueueAggregateEvent d201 "ev" queueClosedFix).2.engine.calls =
      [EngineCall.queueAggregateEvent "ev"] :=
  ⟨rfl, rfl, rfl⟩

/-- Claim C3 (amended): `QueueAggregateEvent` performs only the capacity
check, not the closed check of `QueueEvent`: on a closed queue it never
returns the `Closed` error, and when the buffered count is below the soft
threshold and local bucketing is in use it succeeds and forwards the event to
the engine. -/
theorem QueueAggregateEvent_no_closed_check (d : FlushPayload → DispatchOutcome)
    (ev : String) (e : EventQueue) (_hclosed : e.closed = true) :
    (QueueAggregateEvent d ev e).1 ≠ Except.error QueueErr.Closed ∧
    (e.options.EnableCloudBucketing = false →
      e.engine.queueSize < e.options.FlushEventQueueSize →
      QueueAggregateEvent d ev e =
        (.ok (), { e with engine := e.engine.queueAggregateEventCall ev })) := by
  constructor
  · unfold QueueAggregateEvent
    rcases hq : checkEventQueueSize d e with ⟨q, e'⟩
    cases q <;> simp [hq] <;> split_ifs <;> simp
  · intro hcb hsz
    unfold QueueAggregateEvent checkEventQueueSize EngineState.checkEventQueueSizeCall
    rw [if_neg (by omega)]
    simp [hcb]

/-- Witness for the amended C3, at a concrete closed queue below the soft
threshold. -/
theorem QueueAggregateEvent_no_closed_check_witness :
    queueClosedFix.closed = true ∧
    queueClosedFix.options.EnableCloudBucketing = false ∧
    queueClosedFix.engine.queueSize < queueClosedFix.options.FlushEventQueueSize ∧
    (QueueAggregateEvent d201 "ev" queueClosedFix).1 ≠ Except.error QueueErr.Closed ∧
    QueueAggregateEvent d201 "ev" queueClosedFix =
      (.ok (), { queueClosedFix with
                  engine := queueClosedFix.engine.queueAggregateEventCall "ev" }) :=
  ⟨rfl, rfl, by decide,
   (QueueAggregateEvent_no_closed_check d201 "ev" queueClosedFix rfl).1,
   (QueueAggregateEvent_no_closed_check d201 "ev" queueClosedFix rfl).2 rfl (by decide)⟩

/-- Claim C4: for drained payloads with distinct PayloadIds and any
per-payload dispatch outcomes, each payload's id lands in exactly one of the
three sets of the `FlushResult` produced by `flushEventPayloads` (its total
count across the three lists is exactly one). -/
theorem flushResult_partition (d : FlushPayload → DispatchOutcome)
    (ps : List FlushPayload) (eng : EngineState)
    (hnodup : (ps.map FlushPayload.PayloadId).Nodup) (p : FlushPayload) (hp : p ∈ ps) :
    (flushEventPayloads d ps eng).1.SuccessPayloads.count p.PayloadId +
      (flushEventPayloads d ps eng).1.FailurePayloads.count p.PayloadId +
      (flushEventPayloads d ps eng).1.FailureWithRetryPayloads.count p.PayloadId = 1 := by
  rw [flushEventPayloads_eq]
  dsimp only
  rw [count_partition]
  exact List.count_eq_one_of_mem hnodup (List.mem_map_of_mem _ hp)

/-- Witness for C4: two payloads, one succeeding (201) and one retryable
(503); payload `a` appears exactly once across the three sets. -/
theorem flushResult_partition_witness :
    ([payloadA, payloadB].map FlushPayload.PayloadId).Nodup ∧
    payloadA ∈ [payloadA, payloadB] ∧
    (flushEventPayloads dMixed [payloadA, payloadB] engineFix).1.SuccessPayloads.count
        payloadA.PayloadId +
      (flushEventPayloads dMixed [payloadA, payloadB] engineFix).1.FailurePayloads.count
        payloadA.PayloadId +
      (flushEventPayloads dMixed [payloadA, payloadB] engineFix).1.FailureWithRetryPayloads.count
        payloadA.PayloadId = 1 :=
  ⟨by decide, by decide,
   flushResult_partition dMixed [payloadA, payloadB] engineFix (by decide) payloadA (by decide)⟩

/-- Claim C5: the outcome classification of a dispatched payload applies the
spec's rules in order (`specClassify`): serialization / request-construction /
transport (including body-read) failure is permanent; otherwise status
`≥ 500` is retryable; otherwise status in `[400, 500)` is permanent;
otherwise status `201` is success and increments the reported counter (the
second component `1`); any other status is permanent. -/
theorem flushEventPayload_classification (d : FlushPayload → DispatchOutcome)
    (p : FlushPayload) (s f r : List String) (eng : EngineState) :
    flushEventPayload d p ⟨some s, some f, some r, eng⟩ =
      match specClassify (d p) with
      | .success => (⟨some (s ++ [p.PayloadId]), some f, some r, eng⟩, 1)
      | .permanent => (⟨some s, some (f ++ [p.PayloadId]), some r, eng⟩, 0)
      | .retryable => (⟨some s, some f, some (r ++ [p.PayloadId]), eng⟩, 0) := by
  rw [specClassify_eq_outcomeClass]
  exact flushEventPayload_some d p s f r eng

/-- Counterexample to claim C6: for a flush of one payload answered 201, the
primary engine never receives an `onPayloadSuccess` call — the outcome is
delivered only inside the aggregated `HandleFlushResults` call, so outcomes
are not reported in immediate (per-payload) mode. -/
theorem FlushEvents_immediate_mode_counterexample :
    (FlushEvents d201 queueFix).engine.calls =
      [EngineCall.startFlush,
       EngineCall.handleFlushResults ⟨["p1"], [], []⟩,
       EngineCall.finishFlush] ∧
    EngineCall.onPayloadSuccess "p1" ∉ (FlushEvents d201 queueFix).engine.calls :=
  ⟨rfl, by decide⟩

/-- Claim C6 (amended): `FlushEvents` reports the primary engine's drained
payload outcomes in batched (aggregated) mode: `flushEventPayloads` passes
non-nil accumulators, so no per-payload `onPayloadSuccess` /
`onPayloadFailure` call occurs, and the only reporting calls the primary
engine receives are the flush brackets and a single aggregated
`HandleFlushResults` carrying the outcome sets of every drained payload. -/
theorem FlushEvents_batched_reporting (d : FlushPayload → DispatchOutcome) (e : EventQueue) :
    (FlushEvents d e).engine.calls =
      e.engine.calls ++
        [EngineCall.startFlush,
         EngineCall.handleFlushResults
           ⟨successIds d e.engine.pending, failureIds d e.engine.pending,
            retryIds d e.engine.pending⟩,
         EngineCall.finishFlush] := by
  unfold FlushEvents
  simp [EngineState.startFlushCall, EngineState.flushEventQueue, flushEventPayloads_eq,
        EngineState.handleFlushResultsCall, processPool_primary, EngineState.finishFlushCall]

/-- Counterexample to claim C7: with soft threshold 10 and hard cap 20, a
queue whose buffered count reads 25 triggers the flush and signals drop even
though the count re-measured after the flush would be 0 (< 20): the code
compares the count read before the flush and never re-queries. -/
theorem checkEventQueueSize_postflush_counterexample :
    (checkEventQueueSize d201 queueBigFix).1 = true ∧
    (checkEventQueueSize d201 queueBigFix).2.engine.queueSize = 0 ∧
    queueBigFix.options.MaxEventQueueSize = 20 :=
  ⟨rfl, rfl, rfl⟩

/-- Claim C7 (amended): `checkEventQueueSize` queries the engine's buffered
count, triggers an immediate flush exactly when that count is at or above the
soft threshold, and signals drop exactly when the count measured before that
flush is also at or above the hard cap (the count is not re-measured after
the flush). -/
theorem checkEventQueueSize_preflush_drop (d : FlushPayload → DispatchOutcome)
    (e : EventQueue) :
    ((checkEventQueueSize d e).1 = true ↔
      e.options.FlushEventQueueSize ≤ e.engine.queueSize ∧
      e.options.MaxEventQueueSize ≤ e.engine.queueSize) ∧
    (checkEventQueueSize d e).2 =
      (if e.options.FlushEventQueueSize ≤ e.engine.queueSize then FlushEvents d e else e) := by
  unfold checkEventQueueSize EngineState.checkEventQueueSizeCall
  by_cases h1 : e.options.FlushEventQueueSize ≤ e.engine.queueSize
  · by_cases h2 : e.options.MaxEventQueueSize ≤ e.engine.queueSize <;> simp [h1, h2]
  · simp [h1]

/-- Claim C8: for every attempt `a ≥ 0` and jitter draw `r ∈ [0,1)`,
`backoff(a) = 2^a * 100 + r * 0.2 * (2^a * 100)`; it is at least its
deterministic base `2^a * 100`, the added jitter is at most 20% of that base,
and the deterministic component is strictly increasing in the attempt
number. -/
theorem exponentialBackoff_spec (a : Nat) (r : ℚ) (h0 : 0 ≤ r) (h1 : r < 1) :
    exponentialBackoff a r = 2 ^ a * 100 + r * (1 / 5) * (2 ^ a * 100) ∧
    (2 : ℚ) ^ a * 100 ≤ exponentialBackoff a r ∧
    exponentialBackoff a r - 2 ^ a * 100 ≤ (1 / 5) * (2 ^ a * 100) ∧
    ∀ b : Nat, a < b → (2 : ℚ) ^ a * 100 < 2 ^ b * 100 := by
  have hd : (0 : ℚ) < 2 ^ a * 100 := by positivity
  refine ⟨?_, ?_, ?_, ?_⟩
  · unfold exponentialBackoff
    ring
  · unfold exponentialBackoff
    have hj : (0 : ℚ) ≤ 2 ^ a * 100 * (1 / 5) * r :=
      mul_nonneg (mul_nonneg hd.le (by norm_num)) h0
    dsimp only
    linarith
  · unfold exponentialBackoff
    have hj : 2 ^ a * 100 * (1 / 5) * r ≤ 2 ^ a * 100 * (1 / 5) * 1 := by
      apply mul_le_mul_of_nonneg_left h1.le
      positivity
    dsimp only
    linarith
  · intro b hb
    have h2 : (2 : ℚ) ^ a < 2 ^ b := pow_lt_pow_right₀ (by norm_num) hb
    linarith

/-- Witness for C8 at attempt 3 with jitter draw 1/2. -/
theorem exponentialBackoff_spec_witness :
    (0 : ℚ) ≤ 1 / 2 ∧ (1 / 2 : ℚ) < 1 ∧
    (exponentialBackoff 3 (1 / 2) = 2 ^ 3 * 100 + (1 / 2) * (1 / 5) * (2 ^ 3 * 100) ∧
     (2 : ℚ) ^ 3 * 100 ≤ exponentialBackoff 3 (1 / 2) ∧
     exponentialBackoff 3 (1 / 2) - 2 ^ 3 * 100 ≤ (1 / 5) * (2 ^ 3 * 100) ∧
     ∀ b : Nat, 3 < b → (2 : ℚ) ^ 3 * 100 < 2 ^ b * 100) :=
  ⟨by norm_num, by norm_num, exponentialBackoff_spec 3 (1 / 2) (by norm_num) (by norm_num)⟩

/-- Counterexample to claim C9: against a network that always fails at the
transport, `performRequest` performs 6 attempts, not at most 5: the retry
predicate `attempt <= 5` still allows the loop to run a sixth time. -/
theorem performRequest_attempts_counterexample :
    performRequestAttempts netFailFix = 6 ∧ ¬ performRequestAttempts netFailFix ≤ 5 := by
  decide

/-- Claim C9 (amended): `performRequest` makes at most 6 attempts in total
(the retry predicate allows retries while `attempt ≤ 5`, so a sixth attempt
can run); and if every attempt before `a` fails retryably (transport failure,
nil response, or 5xx while `attempt ≤ 5`) and attempt `a` receives a response
with status in `[400, 500)`, that response is returned as-is with no further
attempt. -/
theorem performRequest_retry_behavior (net : Nat → NetResult) :
    performRequestAttempts net ≤ 6 ∧
    (∀ a s, (∀ b, b < a → 1 ≤ b → retryAt net b) → 1 ≤ a →
      net a = .resp s → 400 ≤ s → s < 500 →
      performRequest net = .ok s ∧ performRequestAttempts net = a) := by
  constructor
  · exact le_trans (performRequestAux_le net 11 1) (by decide)
  · intro a s hretry ha hresp h4 h5
    have ha6 : a ≤ 6 := by
      by_contra hgt
      have hr := hretry 6 (by omega) (by omega)
      have := performAttempt_cont net 6 hr.1
      omega
    have hstop := performRequestAux_first_4xx net 11 1 a s (le_refl 1) ha (by omega)
      (fun b hb1 hb2 => hretry b hb2 hb1) hresp (by omega)
    constructor
    · show (performRequestAux net 1 11).1 = Except.ok s
      rw [hstop]
    · show (performRequestAux net 1 11).2 = a
      rw [hstop]
      dsimp only
      omega

/-- Witness for the amended C9: two transport failures followed by a 404,
which is returned as-is after exactly 3 attempts. -/
theorem performRequest_retry_behavior_witness :
    (∀ b, b < 3 → 1 ≤ b → retryAt netRecoverFix b) ∧ (1 : Nat) ≤ 3 ∧
    netRecoverFix 3 = .resp 404 ∧ (400 : Nat) ≤ 404 ∧ (404 : Nat) < 500 ∧
    (performRequest netRecoverFix = .ok 404 ∧ performRequestAttempts netRecoverFix = 3) :=
  ⟨by decide, by decide, rfl, by decide, by decide,
   (performRequest_retry_behavior netRecoverFix).2 3 404 (by decide) (by decide) rfl
     (by decide) (by decide)⟩

/-- Claim C10: when `DisableCustomEventLogging` is set, `Track` returns
`(true, nil)` immediately: the event is not validated (an empty type is
accepted), nothing is enqueued (the client state is unchanged), and no cloud
request is issued. -/
theorem Track_disabled_skips_all (d : FlushPayload → DispatchOutcome)
    (net : Nat → NetResult) (decodeOk : Bool) (c : DVCClient) (user : String)
    (event : DVCEvent) (h : c.options.DisableCustomEventLogging = true) :
    Track d net decodeOk c user event = ⟨true, none, c, false⟩ := by
  simp [Track, h]

/-- Witness for C10 with an event whose type is empty: `Track` still returns
`(true, nil)` and performs no effect. -/
theorem Track_disabled_skips_all_witness :
    clientDisabledFix.options.DisableCustomEventLogging = true ∧
    Track d201 netFailFix true clientDisabledFix "user" ⟨"", ""⟩ =
      ⟨true, none, clientDisabledFix, false⟩ :=
  ⟨rfl, Track_disabled_skips_all d201 netFailFix true clientDisabledFix "user" ⟨"", ""⟩ rfl⟩

end DevCycle
